import Mathlib

/-! Shopcarts admin page: request construction and form synchronisation.

A shallow embedding of `service/static/js/rest_api.js`.  The page state that
the script reads and writes through jQuery (the two forms, the flash message
area and the two result tables) is an explicit record; every click handler is
a function from the page to the new page together with the ajax request it
issues (if any), and every `done` / `fail` callback is a function from the
response and the page to the new page.
-/

namespace Shopcarts

/-! ## JavaScript values found in decoded JSON responses -/

/-- A primitive JavaScript value.  A number is carried by its ECMAScript
`ToString` rendering, which is the only observation the script makes of a
number (it is written into a form field or spliced into markup). -/
inductive JSVal where
  | undefined
  | null
  | bool (b : Bool)
  | num (text : String)
  | str (s : String)
  deriving DecidableEq, Repr

/-- ECMAScript `ToString`, as used by template literals and by `+` with a
string operand. -/
def JSVal.toStr : JSVal → String
  | .undefined => "undefined"
  | .null => "null"
  | .bool true => "true"
  | .bool false => "false"
  | .num t => t
  | .str s => s

/-- The text an input element holds after jQuery `.val(v)`: `null` and
`undefined` are treated as the empty string, everything else is converted to
its string form when it is assigned to the `value` property. -/
def JSVal.valText : JSVal → String
  | .undefined => ""
  | .null => ""
  | v => v.toStr

/-- The text jQuery `.append(v)` adds to an element: falsy arguments other
than the number zero are skipped, the others are added as they are. -/
def JSVal.appendText : JSVal → String
  | .undefined => ""
  | .null => ""
  | .bool false => ""
  | .num t => if t = "NaN" then "" else t
  | v => v.toStr

/-- An item record of a response. -/
structure Item where
  id : JSVal
  shopcart_id : JSVal
  name : JSVal
  price : JSVal
  description : JSVal
  quantity : JSVal
  deriving DecidableEq, Repr

/-- A shopcart record of a response; `items` is a sequence of items. -/
structure Shopcart where
  id : JSVal
  customer_id : JSVal
  items : List Item
  total_price : JSVal
  creation_time : JSVal
  last_updated_time : JSVal
  deriving DecidableEq, Repr

/-- The error response handed to a `fail` callback.  `responseJSON` is `none`
when the response carried no JSON body (the property is `undefined`);
otherwise it holds the value of the `message` property of the body. -/
structure JqXHR where
  responseJSON : Option JSVal
  deriving DecidableEq, Repr

/-! ## Page state -/

/-- The input fields of the shopcart form (`#shopcart_id`, `#customer_id`,
`#item_id`, `#max_total_price`, `#min_total_price`). -/
structure ShopcartForm where
  shopcart_id : String
  customer_id : String
  item_id : String
  max_total_price : String
  min_total_price : String
  deriving DecidableEq, Repr

/-- The input fields of the item form (`#item_item_id`, `#item_shopcart_id`,
`#item_name`, `#item_price`, `#item_description`, `#item_quantity`). -/
structure ItemForm where
  item_item_id : String
  item_shopcart_id : String
  item_name : String
  item_price : String
  item_description : String
  item_quantity : String
  deriving DecidableEq, Repr

/-- Everything on the page the script touches.  `pet_id` is the value of the
element `#pet_id` when the page has one (the shopcart Clear handler writes to
it); `flash_message`, `search_results` and `item_search_results` are the
contents of the elements of those ids. -/
structure Page where
  shopcart : ShopcartForm
  item : ItemForm
  pet_id : Option String
  flash_message : String
  search_results : String
  item_search_results : String
  deriving DecidableEq, Repr

/-- An ajax request as passed to `$.ajax`. -/
structure Ajax where
  method : String
  url : String
  contentType : String
  data : String
  deriving DecidableEq, Repr

/-- How a callback ended: normally, or by an uncaught `TypeError` (reading a
property of `undefined`), which ends the callback and keeps the writes made
before it. -/
inductive Completion where
  | normal
  | typeError
  deriving DecidableEq, Repr

/-! ## Utility functions (lines 8-52) -/

/-- Source `update_form_data(res)`. -/
def update_form_data (res : Shopcart) (p : Page) : Page :=
  let f := p.shopcart
  let f := { f with shopcart_id := res.id.valText }
  let f := { f with customer_id := res.customer_id.valText }
  let f :=
    if res.items.length != 0 then
      match res.items with
      | it :: _ => { f with item_id := it.id.valText }
      | [] => f
    else
      { f with item_id := "" }
  let f := { f with max_total_price := res.total_price.valText }
  let f := { f with min_total_price := res.total_price.valText }
  { p with shopcart := f }

/-- Source `update_item_form_data(res)`. -/
def update_item_form_data (res : Item) (p : Page) : Page :=
  { p with item :=
      { item_item_id := res.id.valText
        item_shopcart_id := res.shopcart_id.valText
        item_name := res.name.valText
        item_price := res.price.valText
        item_description := res.description.valText
        item_quantity := res.quantity.valText } }

/-- Source `clear_form_data()`. -/
def clear_form_data (p : Page) : Page :=
  { p with shopcart :=
      { shopcart_id := ""
        customer_id := ""
        item_id := ""
        max_total_price := ""
        min_total_price := "" } }

/-- Source `clear_item_form_data()`. -/
def clear_item_form_data (p : Page) : Page :=
  { p with item :=
      { item_item_id := ""
        item_shopcart_id := ""
        item_name := ""
        item_price := ""
        item_description := ""
        item_quantity := "" } }

/-- The statement `$("#flash_message").empty()`. -/
def flash_empty (p : Page) : Page :=
  { p with flash_message := "" }

/-- Source `flash_message(message)`: empty the area, then append. -/
def flash_message (message : JSVal) (p : Page) : Page :=
  let p := flash_empty p
  { p with flash_message := p.flash_message ++ message.appendText }

/-- The `fail` callbacks of the form
`flash_message(res.responseJSON.message)`, preceded by `pre`. -/
def fail_with_message (pre : Page → Page) (res : JqXHR) (p : Page) :
    Page × Completion :=
  let p := pre p
  match res.responseJSON with
  | none => (p, Completion.typeError)
  | some m => (flash_message m p, Completion.normal)

/-- JavaScript truthiness of a string: every string but the empty one. -/
def truthy (s : String) : Bool :=
  decide (s ≠ "")

/-- The `$.ajax` settings used throughout: JSON content type, a method, a
url and a body. -/
def ajax (method url data : String) : Ajax :=
  { method := method, url := url, contentType := "application/json", data := data }

/-! ## Shopcart handlers -/

/-- The `done` callbacks made of `update_form_data(res)` followed by
`flash_message("Success")` (Create, Update and Retrieve of a shopcart). -/
def retrieve_btn_done (res : Shopcart) (p : Page) : Page :=
  flash_message (.str "Success") (update_form_data res p)

/-- Source `#retrieve-btn` click handler (lines 130-142). -/
def retrieve_btn_click (p : Page) : Page × Option Ajax :=
  let shopcart_id := p.shopcart.shopcart_id
  let p := flash_empty p
  (p, some (ajax "GET" ("/shopcarts/" ++ shopcart_id) ""))

/-- Source `#retrieve-btn` `fail` callback (lines 150-153). -/
def retrieve_btn_fail (res : JqXHR) (p : Page) : Page × Completion :=
  fail_with_message clear_form_data res p

/-- Source `#delete-btn` click handler (lines 161-172). -/
def delete_btn_click (p : Page) : Page × Option Ajax :=
  let shopcart_id := p.shopcart.shopcart_id
  let p := flash_empty p
  (p, some (ajax "DELETE" ("/shopcarts/" ++ shopcart_id) ""))

/-- Source `#delete-btn` `done` callback (lines 174-177). -/
def delete_btn_done (p : Page) : Page :=
  flash_message (.str "Shopcart has been Deleted!") (clear_form_data p)

/-- Source `#delete-btn` `fail` callback (lines 179-181); the response is
not read. -/
def delete_btn_fail (_res : JqXHR) (p : Page) : Page × Completion :=
  (flash_message (.str "Server error!") p, Completion.normal)

/-- Source `#empty-btn` click handler (lines 188-200). -/
def empty_btn_click (p : Page) : Page × Option Ajax :=
  let shopcart_id := p.shopcart.shopcart_id
  let p := flash_empty p
  (p, some (ajax "DELETE" ("/shopcarts/" ++ shopcart_id ++ "/items") ""))

/-- Source `#empty-btn` `done` callback (lines 202-205). -/
def empty_btn_done (p : Page) : Page :=
  flash_message (.str "Shopcart has been emptied!") (clear_form_data p)

/-- Source `#empty-btn` `fail` callback (lines 207-209). -/
def empty_btn_fail (_res : JqXHR) (p : Page) : Page × Completion :=
  (flash_message (.str "Server error!") p, Completion.normal)

/-- Source `#clear-btn` click handler (lines 217-221).  `$("#pet_id").val("")`
writes to the element `#pet_id` when the page has one. -/
def clear_btn_click (p : Page) : Page × Option Ajax :=
  let p := { p with pet_id := p.pet_id.map (fun _ => "") }
  let p := flash_empty p
  let p := clear_form_data p
  (p, none)

/-- The query string of the `#search-btn` click handler (lines 233-254). -/
def search_queryString (item_id customer_id max_price min_price : String) : String :=
  let queryString := ""
  let queryString :=
    if truthy item_id then queryString ++ ("item=" ++ item_id) else queryString
  let queryString :=
    if truthy customer_id then queryString ++ ("customer_id=" ++ customer_id)
    else queryString
  let queryString :=
    if truthy max_price then
      if queryString.length > 0 then queryString ++ ("&maxprice=" ++ max_price)
      else queryString ++ ("maxprice=" ++ max_price)
    else queryString
  let queryString :=
    if truthy min_price then
      if queryString.length > 0 then queryString ++ ("&minprice=" ++ min_price)
      else queryString ++ ("minprice=" ++ min_price)
    else queryString
  queryString

/-- Source `#search-btn` click handler (lines 227-263). -/
def search_btn_click (p : Page) : Page × Option Ajax :=
  let item_id := p.shopcart.item_id
  let max_price := p.shopcart.max_total_price
  let min_price := p.shopcart.min_total_price
  let customer_id := p.shopcart.customer_id
  let queryString := search_queryString item_id customer_id max_price min_price
  let p := flash_empty p
  (p, some (ajax "GET" ("/shopcarts?" ++ queryString) ""))

/-- The inner loop of lines 281-283: the text of the Items column. -/
def items_loop : List Item → String → String
  | [], items => items
  | it :: rest, items =>
    items_loop rest (items ++ "id: " ++ it.id.toStr ++ " name: " ++ it.name.toStr ++ " ")

/-- The loop of lines 278-288 from index `i` on: appends one table row per
shopcart and remembers the shopcart of index 0.  `firstCart` is `none` while
the variable still holds its initial `""`. -/
def search_loop : List Shopcart → Nat → String → Option Shopcart → String × Option Shopcart
  | [], _, table, firstCart => (table, firstCart)
  | shopcart :: rest, i, table, firstCart =>
    let items := items_loop shopcart.items ""
    let table := table ++
      ("<tr id=\"row_" ++ toString i ++ "\"><td>" ++ shopcart.id.toStr ++ "</td><td>"
        ++ shopcart.customer_id.toStr ++ "</td><td>" ++ shopcart.total_price.toStr
        ++ "</td><td>" ++ shopcart.creation_time.toStr ++ "</td><td>"
        ++ shopcart.last_updated_time.toStr ++ "</td><td>" ++ items ++ "</td></tr>")
    let firstCart := if i == 0 then some shopcart else firstCart
    search_loop rest (i + 1) table firstCart

/-- Source `#search-btn` `done` callback (lines 265-298).  The test
`firstCart != ""` holds exactly when `firstCart` was assigned a record. -/
def search_btn_done (res : List Shopcart) (p : Page) : Page :=
  let p := { p with search_results := "" }
  let table := "<table class=\"table table-striped\" cellpadding=\"10\">"
  let table := table ++ "<thead><tr>"
  let table := table ++ "<th class=\"col-md-2\">ID</th>"
  let table := table ++ "<th class=\"col-md-2\">Customer ID</th>"
  let table := table ++ "<th class=\"col-md-2\">Total Price</th>"
  let table := table ++ "<th class=\"col-md-2\">Create Time</th>"
  let table := table ++ "<th class=\"col-md-2\">Last Update Time</th>"
  let table := table ++ "<th class=\"col-md-2\">Items</th>"
  let table := table ++ "</tr></thead><tbody>"
  let r := search_loop res 0 table none
  let table := r.1 ++ "</tbody></table>"
  let p := { p with search_results := p.search_results ++ table }
  let p :=
    match r.2 with
    | some firstCart => update_form_data firstCart p
    | none => p
  flash_message (.str "Success") p

/-- Source `#search-btn` `fail` callback (lines 300-302). -/
def search_btn_fail (res : JqXHR) (p : Page) : Page × Completion :=
  fail_with_message id res p

/-! ## Item handlers -/

/-- The `done` callbacks made of `update_item_form_data(res)` followed by
`flash_message("Success")` (Add, Update and Retrieve of an item). -/
def item_retrieve_btn_done (res : Item) (p : Page) : Page :=
  flash_message (.str "Success") (update_item_form_data res p)

/-- Source `#item-retrieve-btn` click handler (lines 396-409). -/
def item_retrieve_btn_click (p : Page) : Page × Option Ajax :=
  let item_id := p.item.item_item_id
  let shopcart_id := p.item.item_shopcart_id
  let p := flash_empty p
  (p, some (ajax "GET" ("/shopcarts/" ++ shopcart_id ++ "/items/" ++ item_id) ""))

/-- Source `#item-retrieve-btn` `fail` callback (lines 417-420). -/
def item_retrieve_btn_fail (res : JqXHR) (p : Page) : Page × Completion :=
  fail_with_message clear_item_form_data res p

/-- Source `#item-delete-btn` click handler (lines 428-440). -/
def item_delete_btn_click (p : Page) : Page × Option Ajax :=
  let item_id := p.item.item_item_id
  let shopcart_id := p.item.item_shopcart_id
  let p := flash_empty p
  (p, some (ajax "DELETE" ("/shopcarts/" ++ shopcart_id ++ "/items/" ++ item_id) ""))

/-- Source `#item-delete-btn` `done` callback (lines 442-445). -/
def item_delete_btn_done (p : Page) : Page :=
  flash_message (.str "Item has been Deleted!") (clear_item_form_data p)

/-- Source `#item-delete-btn` `fail` callback (lines 447-449). -/
def item_delete_btn_fail (_res : JqXHR) (p : Page) : Page × Completion :=
  (flash_message (.str "Server error!") p, Completion.normal)

/-- Source `#item-clear-btn` click handler (lines 456-460). -/
def item_clear_btn_click (p : Page) : Page × Option Ajax :=
  let p := { p with item := { p.item with item_item_id := "" } }
  let p := flash_empty p
  let p := clear_item_form_data p
  (p, none)

/-- The query string of the `#item-search-btn` click handler (lines 471-482). -/
def item_search_queryString (name price : String) : String :=
  let queryString := ""
  let queryString :=
    if truthy name then queryString ++ ("name=" ++ name) else queryString
  let queryString :=
    if truthy price then
      if queryString.length > 0 then queryString ++ ("&price=" ++ price)
      else queryString ++ ("price=" ++ price)
    else queryString
  queryString

/-- Source `#item-search-btn` click handler (lines 466-492). -/
def item_search_btn_click (p : Page) : Page × Option Ajax :=
  let shopcart_id := p.item.item_shopcart_id
  let name := p.item.item_name
  let price := p.item.item_price
  let queryString := item_search_queryString name price
  let p := flash_empty p
  (p, some (ajax "GET" ("/shopcarts/" ++ shopcart_id ++ "/items?" ++ queryString) ""))

/-- The loop of lines 507-513 from index `i` on. -/
def item_search_loop : List Item → Nat → String → Option Item → String × Option Item
  | [], _, table, firstItem => (table, firstItem)
  | item :: rest, i, table, firstItem =>
    let table := table ++
      ("<tr id=\"row_" ++ toString i ++ "\"><td>" ++ item.id.toStr ++ "</td><td>"
        ++ item.shopcart_id.toStr ++ "</td><td>" ++ item.name.toStr ++ "</td><td>"
        ++ item.price.toStr ++ "</td><td>" ++ item.description.toStr ++ "</td><td>"
        ++ item.quantity.toStr ++ "</td></tr>")
    let firstItem := if i == 0 then some item else firstItem
    item_search_loop rest (i + 1) table firstItem

/-- Source `#item-search-btn` `done` callback (lines 494-523). -/
def item_search_btn_done (res : List Item) (p : Page) : Page :=
  let p := { p with item_search_results := "" }
  let table := "<table class=\"table table-striped\" cellpadding=\"10\">"
  let table := table ++ "<thead><tr>"
  let table := table ++ "<th class=\"col-md-2\">ID</th>"
  let table := table ++ "<th class=\"col-md-2\">Shopcart ID</th>"
  let table := table ++ "<th class=\"col-md-2\">Name</th>"
  let table := table ++ "<th class=\"col-md-2\">Price</th>"
  let table := table ++ "<th class=\"col-md-2\">Description</th>"
  let table := table ++ "<th class=\"col-md-2\">Quantity</th>"
  let table := table ++ "</tr></thead><tbody>"
  let r := item_search_loop res 0 table none
  let table := r.1 ++ "</tbody></table>"
  let p := { p with item_search_results := p.item_search_results ++ table }
  let p :=
    match r.2 with
    | some firstItem => update_item_form_data firstItem p
    | none => p
  flash_message (.str "Success") p

/-- Source `#item-search-btn` `fail` callback (lines 525-527). -/
def item_search_btn_fail (res : JqXHR) (p : Page) : Page × Completion :=
  fail_with_message id res p

/-! ## The contract of the query string, in the words of the specification -/

/-- The fields that are present (non-empty), as `(key, value)` pairs in the
order given. -/
def presentPairs (fields : List (String × String)) : List (String × String) :=
  fields.filter (fun kv => decide (kv.2 ≠ ""))

/-- The `key=value` pairs joined by single `&` characters. -/
def joinPairs (pairs : List (String × String)) : String :=
  "&".intercalate (pairs.map (fun kv => kv.1 ++ "=" ++ kv.2))

/-- The fields of a shopcart search under their query keys, in contract
order. -/
def shopcartFields (item_id customer_id max_total_price min_total_price : String) :
    List (String × String) :=
  [("item", item_id), ("customer_id", customer_id), ("maxprice", max_total_price),
    ("minprice", min_total_price)]

/-- The fields of an item search under their query keys, in contract order. -/
def itemFields (name price : String) : List (String × String) :=
  [("name", name), ("price", price)]

/-! ## Reading a query string back -/

/-- Splits a character sequence at every occurrence of `sep`. -/
def splitOnChar (sep : Char) : List Char → List (List Char)
  | [] => [[]]
  | c :: cs =>
    if c = sep then [] :: splitOnChar sep cs
    else
      match splitOnChar sep cs with
      | [] => [[c]]
      | part :: parts => (c :: part) :: parts

/-- Cuts a character sequence at the first occurrence of `sep`: what stands
before it and what stands after it (nothing when `sep` does not occur). -/
def cutAtFirst (sep : Char) : List Char → List Char × List Char
  | [] => ([], [])
  | c :: cs =>
    if c = sep then ([], cs)
    else ((c :: (cutAtFirst sep cs).1), (cutAtFirst sep cs).2)

/-- The `(key, value)` pairs read from a non-empty query: split on `&`, each
part cut at its first `=`. -/
def parseParts (q : List Char) : List (String × String) :=
  (splitOnChar '&' q).map
    (fun part => (String.mk (cutAtFirst '=' part).1, String.mk (cutAtFirst '=' part).2))

/-- The `(key, value)` pairs read from a query string; the empty query string
holds no pair. -/
def parseQuery (q : String) : List (String × String) :=
  if q = "" then [] else parseParts q.data

/-- Pairs whose keys hold neither `&` nor `=` and whose values hold no `&`. -/
def Readable (pairs : List (String × String)) : Prop :=
  ∀ kv ∈ pairs, '&' ∉ kv.1.data ∧ '=' ∉ kv.1.data ∧ '&' ∉ kv.2.data

instance (pairs : List (String × String)) : Decidable (Readable pairs) := by
  unfold Readable
  infer_instance

/-! ## Form synchronisation and failure recovery -/

/-- C2: after the failure callback of shopcart Retrieve, whatever the
response and the prior page, the five shopcart fields are empty and the item
form is unchanged; after the failure callback of item Retrieve the six item
fields are empty and the shopcart form is unchanged. -/
theorem retrieve_fail_clears_owned_form (res : JqXHR) (p : Page) :
    (retrieve_btn_fail res p).1.shopcart = ⟨"", "", "", "", ""⟩
      ∧ (retrieve_btn_fail res p).1.item = p.item
      ∧ (item_retrieve_btn_fail res p).1.item = ⟨"", "", "", "", "", ""⟩
      ∧ (item_retrieve_btn_fail res p).1.shopcart = p.shopcart := by
  cases res with
  | mk body =>
    cases body <;>
      simp [retrieve_btn_fail, item_retrieve_btn_fail, fail_with_message, clear_form_data,
        clear_item_form_data, flash_message, flash_empty]

/-- C3: `update_form_data(res)` writes `res.id`, `res.customer_id` and
`res.total_price` (twice) into the shopcart form, and into `item_id` the id
of the first item, or the empty string when there is no item; the record
`{id:5, customer_id:7, items:[{id:9}], total_price:19.99}` gives the fields
5, 7, 9, 19.99 and 19.99. -/
theorem update_form_data_fields (res : Shopcart) (p : Page) :
    (update_form_data res p).shopcart =
        { shopcart_id := res.id.valText
          customer_id := res.customer_id.valText
          item_id := (match res.items with
            | [] => ""
            | first :: _ => first.id.valText)
          max_total_price := res.total_price.valText
          min_total_price := res.total_price.valText }
      ∧ (update_form_data { res with items := [] } p).shopcart.item_id = ""
      ∧ (update_form_data
            { id := .num "5", customer_id := .num "7",
              items := [{ id := .num "9", shopcart_id := .num "5", name := .str "pen",
                          price := .num "19.99", description := .undefined,
                          quantity := .num "1" }],
              total_price := .num "19.99", creation_time := .undefined,
              last_updated_time := .undefined } p).shopcart
          = ⟨"5", "7", "9", "19.99", "19.99"⟩ := by
  refine ⟨?_, ?_, ?_⟩
  · cases h : res.items <;> simp [update_form_data, h]
  · simp [update_form_data]
  · simp [update_form_data, JSVal.valText, JSVal.toStr]

/-- The row loop started at index 0 on a non-empty sequence remembers the
first record, whatever follows it. -/
theorem search_loop_first (rest : List Shopcart) (i : Nat) (table : String)
    (first : Shopcart) : (search_loop rest (i + 1) table (some first)).2 = some first := by
  induction rest generalizing i table with
  | nil => simp [search_loop]
  | cons c cs ih => simp [search_loop, ih]

/-- The item row loop started at index 0 on a non-empty sequence remembers
the first record, whatever follows it. -/
theorem item_search_loop_first (rest : List Item) (i : Nat) (table : String)
    (first : Item) : (item_search_loop rest (i + 1) table (some first)).2 = some first := by
  induction rest generalizing i table with
  | nil => simp [item_search_loop]
  | cons c cs ih => simp [item_search_loop, ih]

/-- C4: a shopcart Search or an item Search that succeeds with an empty
result sequence shows "Success" and leaves every field of both forms as it
was. -/
theorem search_done_empty_result (p : Page) :
    (search_btn_done [] p).flash_message = "Success"
      ∧ (search_btn_done [] p).shopcart = p.shopcart
      ∧ (search_btn_done [] p).item = p.item
      ∧ (item_search_btn_done [] p).flash_message = "Success"
      ∧ (item_search_btn_done [] p).shopcart = p.shopcart
      ∧ (item_search_btn_done [] p).item = p.item := by
  simp [search_btn_done, item_search_btn_done, search_loop, item_search_loop, flash_message,
    flash_empty, JSVal.appendText, JSVal.toStr]

/-- C5: the failure callbacks of shopcart Delete, shopcart Empty and item
Delete show exactly "Server error!" and leave both forms unchanged, for every
response and every prior page. -/
theorem delete_fail_fixed_message (res : JqXHR) (p : Page) :
    ((delete_btn_fail res p).1.flash_message = "Server error!"
        ∧ (delete_btn_fail res p).1.shopcart = p.shopcart
        ∧ (delete_btn_fail res p).1.item = p.item)
      ∧ ((empty_btn_fail res p).1.flash_message = "Server error!"
        ∧ (empty_btn_fail res p).1.shopcart = p.shopcart
        ∧ (empty_btn_fail res p).1.item = p.item)
      ∧ ((item_delete_btn_fail res p).1.flash_message = "Server error!"
        ∧ (item_delete_btn_fail res p).1.shopcart = p.shopcart
        ∧ (item_delete_btn_fail res p).1.item = p.item) := by
  simp [delete_btn_fail, empty_btn_fail, item_delete_btn_fail, flash_message, flash_empty,
    JSVal.appendText, JSVal.toStr]

/-- C6: shopcart Clear issues no request, empties every shopcart field and
leaves the item form unchanged; item Clear issues no request, empties every
item field and leaves the shopcart form unchanged. -/
theorem clear_is_local (p : Page) :
    ((clear_btn_click p).2 = none
        ∧ (clear_btn_click p).1.shopcart = ⟨"", "", "", "", ""⟩
        ∧ (clear_btn_click p).1.item = p.item)
      ∧ ((item_clear_btn_click p).2 = none
        ∧ (item_clear_btn_click p).1.item = ⟨"", "", "", "", "", ""⟩
        ∧ (item_clear_btn_click p).1.shopcart = p.shopcart) := by
  simp [clear_btn_click, item_clear_btn_click, clear_form_data, clear_item_form_data,
    flash_empty]

/-- C7: the item Search query string is empty when name and price are both
empty, `name=<name>` or `price=<price>` when only one is present, and
`name=<name>&price=<price>` when both are; the request url is
`/shopcarts/<item_shopcart_id>/items?` followed by it. -/
theorem item_search_query_cases (p : Page) (name price : String) :
    item_search_queryString name price =
        (if name = "" then (if price = "" then "" else "price=" ++ price)
          else (if price = "" then "name=" ++ name
            else "name=" ++ name ++ "&price=" ++ price))
      ∧ (item_search_btn_click p).2.map Ajax.url =
        some ("/shopcarts/" ++ p.item.item_shopcart_id ++ "/items?"
          ++ item_search_queryString p.item.item_name p.item.item_price) := by
  refine ⟨?_, ?_⟩
  · have hk : "name=".length = 5 := rfl
    by_cases hn : name = "" <;> by_cases hp : price = "" <;>
      simp [item_search_queryString, truthy, hn, hp, hk, String.append_assoc]
  · simp [item_search_btn_click, ajax]

/-- C8: on a non-empty result sequence the shopcart Search success callback
leaves the shopcart form (and the message) that the Retrieve success path
leaves on the first record, whatever the other results and the prior pages;
likewise item Search and the item form. -/
theorem search_done_first_as_retrieve (first : Shopcart) (rest : List Shopcart)
    (firstItem : Item) (restItems : List Item) (p q : Page) :
    ((search_btn_done (first :: rest) p).shopcart = (retrieve_btn_done first q).shopcart
        ∧ (search_btn_done (first :: rest) p).shopcart = (update_form_data first q).shopcart
        ∧ (search_btn_done (first :: rest) p).item = (retrieve_btn_done first p).item
        ∧ (search_btn_done (first :: rest) p).flash_message
            = (retrieve_btn_done first q).flash_message)
      ∧ ((item_search_btn_done (firstItem :: restItems) p).item
            = (item_retrieve_btn_done firstItem q).item
        ∧ (item_search_btn_done (firstItem :: restItems) p).item
            = (update_item_form_data firstItem q).item
        ∧ (item_search_btn_done (firstItem :: restItems) p).shopcart
            = (item_retrieve_btn_done firstItem p).shopcart
        ∧ (item_search_btn_done (firstItem :: restItems) p).flash_message
            = (item_retrieve_btn_done firstItem q).flash_message) := by
  have h1 := fun t => search_loop_first rest 0 t first
  have h2 := fun t => item_search_loop_first restItems 0 t firstItem
  simp only [Nat.zero_add] at h1 h2
  refine ⟨?_, ?_⟩
  · cases hi : first.items <;>
      simp [search_btn_done, retrieve_btn_done, search_loop, h1, update_form_data,
        flash_message, flash_empty, hi]
  · simp [item_search_btn_done, item_retrieve_btn_done, item_search_loop, h2,
      update_item_form_data, flash_message, flash_empty]

/-! ## Query strings -/

/-- The accumulator of `String.intercalate` can be taken out in front. -/
theorem intercalate_go_acc (s : String) (parts : List String) (acc : String) :
    String.intercalate.go acc s parts = acc ++ String.intercalate.go "" s parts := by
  induction parts generalizing acc with
  | nil => simp [String.intercalate.go]
  | cons a rest ih =>
    rw [String.intercalate.go, ih, String.intercalate.go, ih ("" ++ s ++ a)]
    simp [String.append_assoc]

/-- Joining two or more parts: the first part, the separator, then the rest
joined. -/
theorem intercalate_cons_cons (s a b : String) (rest : List String) :
    s.intercalate (a :: b :: rest) = a ++ s ++ s.intercalate (b :: rest) := by
  simp only [String.intercalate]
  rw [String.intercalate.go, intercalate_go_acc, intercalate_go_acc s rest b]
  simp [String.append_assoc]

/-- A sequence without the separator is a single part. -/
theorem splitOnChar_of_not_mem (sep : Char) (a : List Char) (h : sep ∉ a) :
    splitOnChar sep a = [a] := by
  induction a with
  | nil => rfl
  | cons c cs ih =>
    have hc : c ≠ sep := fun e => h (by simp [e])
    have hcs : sep ∉ cs := fun m => h (List.mem_cons_of_mem _ m)
    simp [splitOnChar, hc, ih hcs]

/-- A part without the separator, followed by the separator, is split off. -/
theorem splitOnChar_append (sep : Char) (a b : List Char) (h : sep ∉ a) :
    splitOnChar sep (a ++ sep :: b) = a :: splitOnChar sep b := by
  induction a with
  | nil => simp [splitOnChar]
  | cons c cs ih =>
    have hc : c ≠ sep := fun e => h (by simp [e])
    have hcs : sep ∉ cs := fun m => h (List.mem_cons_of_mem _ m)
    simp [splitOnChar, hc, ih hcs]

/-- Cutting `key=value` at the first `=` gives the key and the value when
the key holds no `=`. -/
theorem cutAtFirst_append (sep : Char) (k v : List Char) (h : sep ∉ k) :
    cutAtFirst sep (k ++ sep :: v) = (k, v) := by
  induction k with
  | nil => simp [cutAtFirst]
  | cons c cs ih =>
    have hc : c ≠ sep := fun e => h (by simp [e])
    have hcs : sep ∉ cs := fun m => h (List.mem_cons_of_mem _ m)
    simp [cutAtFirst, hc, ih hcs]

/-- Reading back the joined pairs gives the pairs. -/
theorem parseParts_joinPairs (kv : String × String) (pairs : List (String × String))
    (h : Readable (kv :: pairs)) : parseParts (joinPairs (kv :: pairs)).data = kv :: pairs := by
  induction pairs generalizing kv with
  | nil =>
    obtain ⟨h1, h2, h3⟩ := h kv (by simp)
    have hno : '&' ∉ kv.1.data ++ '=' :: kv.2.data := by
      simp [h1, h3]
    have hj : (joinPairs [kv]).data = kv.1.data ++ '=' :: kv.2.data := by
      simp [joinPairs, String.intercalate, String.intercalate.go]
    rw [hj, parseParts, splitOnChar_of_not_mem _ _ hno]
    simp [cutAtFirst_append _ _ _ h2]
  | cons kv2 rest ih =>
    obtain ⟨h1, h2, h3⟩ := h kv (by simp)
    have hrest : Readable (kv2 :: rest) := fun x hx => h x (List.mem_cons_of_mem _ hx)
    have hno : '&' ∉ kv.1.data ++ '=' :: kv.2.data := by
      simp [h1, h3]
    have hj : (joinPairs (kv :: kv2 :: rest)).data
        = (kv.1.data ++ '=' :: kv.2.data) ++ '&' :: (joinPairs (kv2 :: rest)).data := by
      simp only [joinPairs, List.map_cons, intercalate_cons_cons, String.data_append]
      simp
    have ih2 := ih kv2 hrest
    rw [parseParts] at ih2
    rw [hj, parseParts, splitOnChar_append _ _ _ hno, List.map_cons, ih2]
    simp [cutAtFirst_append _ _ _ h2]

/-- Reading back the joined pairs gives the pairs, the empty list included. -/
theorem parseQuery_joinPairs (pairs : List (String × String)) (h : Readable pairs) :
    parseQuery (joinPairs pairs) = pairs := by
  cases pairs with
  | nil => simp [parseQuery, joinPairs, String.intercalate]
  | cons kv rest =>
    have hne : joinPairs (kv :: rest) ≠ "" := by
      intro e
      have := parseParts_joinPairs kv rest h
      rw [e] at this
      simp only [parseParts, splitOnChar, List.map_cons, List.map_nil, List.cons.injEq] at this
      obtain ⟨hk, hr⟩ := this
      subst hr
      subst hk
      exact absurd e (by decide)
    simp [parseQuery, hne, parseParts_joinPairs kv rest h]

/-- The item Search query string is the present fields joined. -/
theorem item_query_eq_join (name price : String) :
    item_search_queryString name price = joinPairs (presentPairs (itemFields name price)) := by
  have hk : "name=".length = 5 := rfl
  by_cases hn : name = "" <;> by_cases hp : price = "" <;>
    simp [item_search_queryString, truthy, hn, hp, hk, String.append_assoc, joinPairs,
      presentPairs, itemFields, String.intercalate, String.intercalate.go] <;> rfl

/-- The shopcart Search query string is the present fields joined, unless
both `item_id` and `customer_id` are present. -/
theorem search_query_eq_join (item_id customer_id max_price min_price : String)
    (h : ¬ (item_id ≠ "" ∧ customer_id ≠ "")) :
    search_queryString item_id customer_id max_price min_price
      = joinPairs (presentPairs (shopcartFields item_id customer_id max_price min_price)) := by
  have hk1 : "item=".length = 5 := rfl
  have hk2 : "customer_id=".length = 12 := rfl
  have hk3 : "maxprice=".length = 9 := rfl
  by_cases hi : item_id = "" <;> by_cases hc : customer_id = "" <;>
    by_cases hx : max_price = "" <;> by_cases hm : min_price = "" <;>
    simp [hi, hc] at h <;>
    simp [search_queryString, truthy, hi, hc, hx, hm, hk1, hk2, hk3, String.append_assoc,
      joinPairs, presentPairs, shopcartFields, String.intercalate, String.intercalate.go]
      <;> rfl

/-- The present fields of either search can be read back when no value holds
an `&`. -/
theorem readable_present (fields : List (String × String))
    (hk : ∀ kv ∈ fields, '&' ∉ kv.1.data ∧ '=' ∉ kv.1.data)
    (hv : ∀ kv ∈ fields, '&' ∉ kv.2.data) : Readable (presentPairs fields) := by
  intro kv hkv
  have hm : kv ∈ fields := (List.mem_filter.mp hkv).1
  exact ⟨(hk kv hm).1, (hk kv hm).2, hv kv hm⟩

/-- C1 (the code at the failing input): with `item_id` and `customer_id` both
present the handler builds `item=1customer_id=2`, without the `&` that the
contract `item=1&customer_id=2` has between the two pairs. -/
theorem search_query_item_customer_unjoined :
    search_queryString "1" "2" "" "" = "item=1customer_id=2"
      ∧ joinPairs (presentPairs (shopcartFields "1" "2" "" "")) = "item=1&customer_id=2"
      ∧ search_queryString "1" "2" "" ""
          ≠ joinPairs (presentPairs (shopcartFields "1" "2" "" "")) := by
  decide

/-- C10: when `item_id` and `customer_id` are not both present, the shopcart
Search query string is the present fields as `key=value` pairs under the keys
item, customer_id, maxprice, minprice, in that order, joined by single `&`;
the fields "", "42", "100", "" give `customer_id=42&maxprice=100`. -/
theorem search_query_contract (item_id customer_id max_total_price min_total_price : String)
    (h : ¬ (item_id ≠ "" ∧ customer_id ≠ "")) :
    search_queryString item_id customer_id max_total_price min_total_price
        = joinPairs
            (presentPairs (shopcartFields item_id customer_id max_total_price min_total_price))
      ∧ search_queryString "" "42" "100" "" = "customer_id=42&maxprice=100" :=
  ⟨search_query_eq_join item_id customer_id max_total_price min_total_price h, by decide⟩

/-- C10 at the fields "", "42", "100", "". -/
theorem search_query_contract_witness :
    ¬ (("" : String) ≠ "" ∧ ("42" : String) ≠ "")
      ∧ (search_queryString "" "42" "100" ""
          = joinPairs (presentPairs (shopcartFields "" "42" "100" ""))
        ∧ search_queryString "" "42" "100" "" = "customer_id=42&maxprice=100") :=
  ⟨by decide, search_query_contract "" "42" "100" "" (by decide)⟩

/-- C9 (as stated, refuted): a value is inserted as it is; the name `a&b`
puts a literal `&` into the item Search query string, and reading the query
string back does not give the pair `(name, a&b)`. -/
theorem query_not_url_encoded :
    '&' ∈ (item_search_queryString "a&b" "").data
      ∧ item_search_queryString "a&b" "" = "name=a&b"
      ∧ parseQuery (item_search_queryString "a&b" "") = [("name", "a"), ("b", "")]
      ∧ parseQuery (item_search_queryString "a&b" "")
          ≠ presentPairs (itemFields "a&b" "") := by
  decide

/-- C9 (amended): values are inserted without encoding; when no filter value
holds an `&`, splitting the item Search query string on `&` and each part on
its first `=` gives back exactly the present `(key, value)` pairs, and so
does the shopcart Search query string when `item_id` and `customer_id` are
not both present. -/
theorem query_read_back (name price item_id customer_id max_total_price min_total_price : String)
    (hname : '&' ∉ name.data) (hprice : '&' ∉ price.data)
    (hitem : '&' ∉ item_id.data) (hcustomer : '&' ∉ customer_id.data)
    (hmax : '&' ∉ max_total_price.data) (hmin : '&' ∉ min_total_price.data)
    (hboth : ¬ (item_id ≠ "" ∧ customer_id ≠ "")) :
    parseQuery (item_search_queryString name price) = presentPairs (itemFields name price)
      ∧ parseQuery (search_queryString item_id customer_id max_total_price min_total_price)
          = presentPairs (shopcartFields item_id customer_id max_total_price min_total_price) := by
  refine ⟨?_, ?_⟩
  · rw [item_query_eq_join]
    apply parseQuery_joinPairs
    apply readable_present
    · intro kv hkv
      simp only [itemFields, List.mem_cons, List.mem_singleton, List.not_mem_nil, or_false] at hkv
      rcases hkv with rfl | rfl <;> refine ⟨?_, ?_⟩ <;> dsimp only <;> decide
    · simp [itemFields, hname, hprice]
  · rw [search_query_eq_join _ _ _ _ hboth]
    apply parseQuery_joinPairs
    apply readable_present
    · intro kv hkv
      simp only [shopcartFields, List.mem_cons, List.mem_singleton, List.not_mem_nil,
        or_false] at hkv
      rcases hkv with rfl | rfl | rfl | rfl <;> refine ⟨?_, ?_⟩ <;> dsimp only <;> decide
    · simp [shopcartFields, hitem, hcustomer, hmax, hmin]

/-- C9 (amended) at the item fields "pen", "3" and the shopcart fields "",
"42", "100", "". -/
theorem query_read_back_witness :
    ('&' ∉ ("pen" : String).data ∧ '&' ∉ ("3" : String).data ∧ '&' ∉ ("" : String).data
        ∧ '&' ∉ ("42" : String).data ∧ '&' ∉ ("100" : String).data
        ∧ ¬ (("" : String) ≠ "" ∧ ("42" : String) ≠ ""))
      ∧ (parseQuery (item_search_queryString "pen" "3") = presentPairs (itemFields "pen" "3")
        ∧ parseQuery (search_queryString "" "42" "100" "")
            = presentPairs (shopcartFields "" "42" "100" "")) :=
  ⟨by decide,
    query_read_back "pen" "3" "" "42" "100" "" (by decide) (by decide) (by decide) (by decide)
      (by decide) (by decide) (by decide)⟩

end Shopcarts
